import Mathlib

/-!
A shallow embedding of the TF-M secure-side client-call dispatcher
(secure_fw/core/ipc/tfm_psa_client_call.c) and of the RPC operations
indirection (secure_fw/core/ipc/tfm_rpc.c), with theorems about the
validation and dispatch behaviour of the four client-call entry points
and about the register/unregister discipline of the RPC operations slot.

Machine arithmetic: the target is a 32-bit Cortex-M platform, so size_t
arithmetic is modelled as natural-number arithmetic modulo 2^32.

External collaborators (service directory, memory boundary checker,
message allocator, event path) are modelled as an explicit environment
of pure functions; the dispatcher records its interactions with them in
an ordered event trace, and a call to tfm_panic is modelled as a
distinguished outcome carrying the trace of interactions performed
before the panic.
-/

namespace TfmIpc

/-- Modulus of size_t arithmetic on the 32-bit Cortex-M target. -/
def SIZE_T_MOD : Nat := 4294967296

/-- PSA_MAX_IOVEC from the platform headers: at most 4 I/O vectors per call. -/
def PSA_MAX_IOVEC : Nat := 4

/-- sizeof(psa_invec) on the 32-bit target: a 4-byte base pointer plus a
4-byte size_t length. -/
def sizeof_psa_invec : Nat := 8

/-- sizeof(psa_outvec) on the 32-bit target. -/
def sizeof_psa_outvec : Nat := 8

/-- PSA_VERSION_NONE, the reserved no-such-version sentinel. -/
def PSA_VERSION_NONE : Nat := 0

/-- PSA_SUCCESS status. -/
def PSA_SUCCESS : Int := 0

/-- PSA_CONNECTION_BUSY status. The header holding its numeric value is not
part of this repository snapshot; it is a negative status distinct from
PSA_SUCCESS, which is all the dispatcher code relies on. -/
def PSA_CONNECTION_BUSY : Int := -2147483646

/-- PSA_NULL_HANDLE, the null connection handle. -/
def PSA_NULL_HANDLE : Int := 0

/-- PSA_IPC_CONNECT message type. -/
def PSA_IPC_CONNECT : Nat := 1

/-- PSA_IPC_CALL message type. -/
def PSA_IPC_CALL : Nat := 2

/-- PSA_IPC_DISCONNECT message type. -/
def PSA_IPC_DISCONNECT : Nat := 3

/-- IPC_SUCCESS from tfm_internal_defines.h; internal statuses compared
against it are negative on failure. -/
def IPC_SUCCESS : Int := 0

/-- The per-service data tfm_psa_client_call.c reads through
service->service_db: the non_secure_client reachability flag and the
minor_version. -/
structure ServiceDb where
  non_secure_client : Bool
  minor_version : Nat
  deriving DecidableEq

/-- A service descriptor as used by the dispatcher (borrowed from the
service directory). -/
structure Service where
  service_db : ServiceDb
  deriving DecidableEq

/-- psa_invec: one caller-supplied input descriptor, a base address and a
length. -/
structure psa_invec where
  base : Nat
  len : Nat
  deriving DecidableEq

/-- psa_outvec: one caller-supplied output descriptor. -/
structure psa_outvec where
  base : Nat
  len : Nat
  deriving DecidableEq

/-- The arguments tfm_psa_client_call.c passes to the external message
factory tfm_spm_create_msg; the constructed message is identified with
them.  caller_outvec is the address of the caller's original outvec
array (the reply write-back target), NULL for connect and close. -/
structure MsgParams where
  handle : Int
  kind : Nat
  ns_caller : Bool
  invecs : List psa_invec
  in_len : Nat
  outvecs : List psa_outvec
  out_len : Nat
  caller_outvec : Option Nat
  deriving DecidableEq

/-- Observable interactions of the dispatcher with its environment, in
program order: a memory boundary check of a (base, length) range, the
descriptor-array copy (the two tfm_memcpy snapshots), a message
construction attempt, and an event-path hand-off. -/
inductive Ev where
  | check (base len : Nat) (ns_caller : Bool)
  | copy (in_vec in_len out_vec out_len : Nat)
  | create (s : Service) (p : MsgParams)
  | send (s : Service) (p : MsgParams)
  deriving DecidableEq

/-- Result of one dispatcher entry point: either tfm_panic (control never
returns to the caller) or a normal return, each carrying the trace of
external interactions performed up to that point. -/
inductive Outcome (α : Type) where
  | panic (tr : List Ev)
  | ret (a : α) (tr : List Ev)
  deriving DecidableEq

/-- The external collaborators consumed by tfm_psa_client_call.c, as pure
functions: service lookup by sid and by handle, the version
compatibility check, the memory boundary checker, the message
allocator's success predicate, and the event-path status. -/
structure Env where
  tfm_spm_get_service_by_sid : Nat → Option Service
  tfm_spm_get_service_by_handle : Int → Option Service
  tfm_spm_check_client_version : Service → Nat → Int
  tfm_memory_check : Nat → Nat → Bool → Int
  msg_alloc_ok : Service → MsgParams → Bool
  tfm_spm_send_event : Service → MsgParams → Int

/-- tfm_spm_create_msg: the external message factory; returns the message
(identified with its construction parameters) unless allocation fails. -/
def tfm_spm_create_msg (env : Env) (s : Service) (p : MsgParams) : Option MsgParams :=
  if env.msg_alloc_ok s p then some p else none

/-- Contents of the caller-owned descriptor arrays, read struct-wise:
inArr base i is the i-th input descriptor of the array at address base,
as the dispatcher's tfm_memcpy would read it. -/
structure CallerMem where
  inArr : Nat → Nat → psa_invec
  outArr : Nat → Nat → psa_outvec

/-- Program points of tfm_psa_call at which caller descriptor memory is or
could be observed: the invec memcpy snapshot, the outvec memcpy
snapshot, and everything after them (the per-element validation loop and
message construction).  The caller may mutate its arrays between phases;
the embedding of tfm_psa_call reads contents only at the two copy
phases, mirroring the source, where all later steps use the local
copies. -/
inductive Phase where
  | copyIn
  | copyOut
  | afterCopy
  deriving DecidableEq

/-- Zero-filled psa_invec, as left by tfm_memset. -/
def zero_invec : psa_invec := ⟨0, 0⟩

/-- Zero-filled psa_outvec, as left by tfm_memset. -/
def zero_outvec : psa_outvec := ⟨0, 0⟩

/-- The local invecs array of tfm_psa_call: PSA_MAX_IOVEC entries,
zero-initialised by tfm_memset, then the first count entries overwritten
from caller memory by tfm_memcpy.  Runs with count > PSA_MAX_IOVEC are
undefined behaviour in C (the copy and the following loop overrun the
4-entry stack array) and are clipped to capacity here; every run that
passes the vector-count gate without size_t wrap has count ≤
PSA_MAX_IOVEC, where the model is exact. -/
def copied_invecs (m : CallerMem) (base count : Nat) : List psa_invec :=
  (List.range PSA_MAX_IOVEC).map fun i => if i < count then m.inArr base i else zero_invec

/-- The local outvecs array of tfm_psa_call, analogous to copied_invecs. -/
def copied_outvecs (m : CallerMem) (base count : Nat) : List psa_outvec :=
  (List.range PSA_MAX_IOVEC).map fun i => if i < count then m.outArr base i else zero_outvec

/-- The per-element validation loops of tfm_psa_call: check each (base,
length) range in order, stopping at the first failure (which the caller
observes as tfm_panic).  Returns the checks performed and whether all of
them passed. -/
def check_ranges (env : Env) (ns_caller : Bool) : List (Nat × Nat) → List Ev × Bool
  | [] => ([], true)
  | (b, l) :: rest =>
    if env.tfm_memory_check b l ns_caller ≠ IPC_SUCCESS then
      ([Ev.check b l ns_caller], false)
    else
      let r := check_ranges env ns_caller rest
      (Ev.check b l ns_caller :: r.1, r.2)

/-- tfm_psa_version from tfm_psa_client_call.c.  The source has no panic
path and touches no mutable state, so the embedding is a total pure
function on the environment. -/
def tfm_psa_version (env : Env) (sid : Nat) (ns_caller : Bool) : Nat :=
  match env.tfm_spm_get_service_by_sid sid with
  | none => PSA_VERSION_NONE
  | some service =>
    if ns_caller && !service.service_db.non_secure_client then PSA_VERSION_NONE
    else service.service_db.minor_version

/-- The construction parameters of the connect message: null handle,
PSA_IPC_CONNECT, the caller trust level, and no payload. -/
def connect_msg_params (ns_caller : Bool) : MsgParams :=
  ⟨PSA_NULL_HANDLE, PSA_IPC_CONNECT, ns_caller, [], 0, [], 0, none⟩

/-- tfm_psa_connect from tfm_psa_client_call.c.  The status returned by
tfm_spm_send_event is discarded by the source; the hand-off itself is
recorded in the trace. -/
def tfm_psa_connect (env : Env) (sid : Nat) (minor_version : Nat) (ns_caller : Bool) :
    Outcome Int :=
  match env.tfm_spm_get_service_by_sid sid with
  | none => .panic []
  | some service =>
    if ns_caller && !service.service_db.non_secure_client then .panic []
    else if env.tfm_spm_check_client_version service minor_version ≠ IPC_SUCCESS then .panic []
    else
      match tfm_spm_create_msg env service (connect_msg_params ns_caller) with
      | none => .ret PSA_CONNECTION_BUSY [Ev.create service (connect_msg_params ns_caller)]
      | some msg =>
        .ret PSA_SUCCESS [Ev.create service (connect_msg_params ns_caller),
                          Ev.send service msg]

/-- tfm_psa_call from tfm_psa_client_call.c.  size_t additions and
multiplications are reduced modulo 2^32 as on the target.  Caller
descriptor contents are read exclusively at the two memcpy snapshot
phases; all later validation and message construction uses the local
copies, mirroring the source. -/
def tfm_psa_call (env : Env) (mem : Phase → CallerMem) (handle : Int)
    (in_vec : Nat) (in_len : Nat) (out_vec : Nat) (out_len : Nat)
    (ns_caller : Bool) : Outcome Int :=
  if (in_len + out_len) % SIZE_T_MOD > PSA_MAX_IOVEC then .panic []
  else
    match env.tfm_spm_get_service_by_handle handle with
    | none => .panic []
    | some service =>
      let in_bytes := (in_len * sizeof_psa_invec) % SIZE_T_MOD
      let out_bytes := (out_len * sizeof_psa_outvec) % SIZE_T_MOD
      if env.tfm_memory_check in_vec in_bytes ns_caller ≠ IPC_SUCCESS then
        .panic [Ev.check in_vec in_bytes ns_caller]
      else if env.tfm_memory_check out_vec out_bytes ns_caller ≠ IPC_SUCCESS then
        .panic [Ev.check in_vec in_bytes ns_caller, Ev.check out_vec out_bytes ns_caller]
      else
        let invecs := copied_invecs (mem Phase.copyIn) in_vec in_len
        let outvecs := copied_outvecs (mem Phase.copyOut) out_vec out_len
        let tr0 := [Ev.check in_vec in_bytes ns_caller,
                    Ev.check out_vec out_bytes ns_caller,
                    Ev.copy in_vec in_len out_vec out_len]
        let rin := check_ranges env ns_caller ((invecs.take in_len).map fun v => (v.base, v.len))
        if rin.2 = false then .panic (tr0 ++ rin.1)
        else
          let rout :=
            check_ranges env ns_caller ((outvecs.take out_len).map fun v => (v.base, v.len))
          if rout.2 = false then .panic (tr0 ++ rin.1 ++ rout.1)
          else
            let p : MsgParams :=
              ⟨handle, PSA_IPC_CALL, ns_caller, invecs, in_len, outvecs, out_len, some out_vec⟩
            match tfm_spm_create_msg env service p with
            | none => .panic (tr0 ++ rin.1 ++ rout.1 ++ [Ev.create service p])
            | some msg =>
              if env.tfm_spm_send_event service msg ≠ IPC_SUCCESS then
                .panic (tr0 ++ rin.1 ++ rout.1 ++ [Ev.create service p, Ev.send service msg])
              else
                .ret PSA_SUCCESS (tr0 ++ rin.1 ++ rout.1 ++ [Ev.create service p,
                                                             Ev.send service msg])

/-- The construction parameters of the disconnect message: the handle being
closed, PSA_IPC_DISCONNECT, the caller trust level, and no payload. -/
def close_msg_params (handle : Int) (ns_caller : Bool) : MsgParams :=
  ⟨handle, PSA_IPC_DISCONNECT, ns_caller, [], 0, [], 0, none⟩

/-- tfm_psa_close from tfm_psa_client_call.c.  A failed message allocation
silently returns; the status of tfm_spm_send_event is discarded. -/
def tfm_psa_close (env : Env) (handle : Int) (ns_caller : Bool) : Outcome Unit :=
  if handle = PSA_NULL_HANDLE then .ret () []
  else
    match env.tfm_spm_get_service_by_handle handle with
    | none => .panic []
    | some service =>
      match tfm_spm_create_msg env service (close_msg_params handle ns_caller) with
      | none => .ret () [Ev.create service (close_msg_params handle ns_caller)]
      | some msg =>
        .ret () [Ev.create service (close_msg_params handle ns_caller),
                 Ev.send service msg]

/-- A C function pointer as compared by tfm_rpc.c: NULL, one of the file's
two static default handlers, or some other function. -/
inductive FnPtr where
  | null
  | defaultFn
  | other (id : Nat)
  deriving DecidableEq

/-- struct tfm_rpc_ops_t: the RPC operations slot holding the request
handler and the reply handler. -/
structure tfm_rpc_ops_t where
  handle_req : FnPtr
  reply : FnPtr
  deriving DecidableEq

/-- The initial value of the static rpc_ops slot: both members point at the
file's default no-op handlers. -/
def default_rpc_ops : tfm_rpc_ops_t := ⟨FnPtr.defaultFn, FnPtr.defaultFn⟩

/-- TFM_RPC_SUCCESS.  The header holding the numeric values of the three
RPC statuses is not part of this snapshot; they are modelled as distinct
integers, which is all tfm_rpc.c relies on. -/
def TFM_RPC_SUCCESS : Int := 0

/-- TFM_RPC_INVAL_PARAM status. -/
def TFM_RPC_INVAL_PARAM : Int := -1

/-- TFM_RPC_CONFLICT_CALLBACK status. -/
def TFM_RPC_CONFLICT_CALLBACK : Int := -2

/-- tfm_rpc_register_ops from tfm_rpc.c, with the global slot passed and
returned explicitly.  ops_ptr = none models a NULL ops pointer. -/
def tfm_rpc_register_ops (rpc_ops : tfm_rpc_ops_t) (ops_ptr : Option tfm_rpc_ops_t) :
    Int × tfm_rpc_ops_t :=
  match ops_ptr with
  | none => (TFM_RPC_INVAL_PARAM, rpc_ops)
  | some ops =>
    if ops.handle_req = FnPtr.null ∨ ops.reply = FnPtr.null then
      (TFM_RPC_INVAL_PARAM, rpc_ops)
    else if rpc_ops.handle_req ≠ FnPtr.defaultFn ∨ rpc_ops.reply ≠ FnPtr.defaultFn then
      (TFM_RPC_CONFLICT_CALLBACK, rpc_ops)
    else
      (TFM_RPC_SUCCESS, ⟨ops.handle_req, ops.reply⟩)

/-- tfm_rpc_unregister_ops from tfm_rpc.c: unconditionally restores both
slot members to the default handlers, ignoring the prior state. -/
def tfm_rpc_unregister_ops (_rpc_ops : tfm_rpc_ops_t) : tfm_rpc_ops_t :=
  default_rpc_ops

/-- struct client_call_params_t as used by the wrappers in tfm_rpc.c: the
bundled parameter block of an out-of-band request.  in_vec and out_vec
are the addresses of the caller's descriptor arrays. -/
structure client_call_params_t where
  sid : Nat
  version : Nat
  handle : Int
  type : Nat
  in_vec : Nat
  in_len : Nat
  out_vec : Nat
  out_len : Nat
  deriving DecidableEq

/-- tfm_rpc_psa_version from tfm_rpc.c (the non-null-params case past
TFM_CORE_ASSERT). -/
def tfm_rpc_psa_version (env : Env) (params : client_call_params_t) (ns_caller : Bool) : Nat :=
  tfm_psa_version env params.sid ns_caller

/-- tfm_rpc_psa_connect from tfm_rpc.c. -/
def tfm_rpc_psa_connect (env : Env) (params : client_call_params_t) (ns_caller : Bool) :
    Outcome Int :=
  tfm_psa_connect env params.sid params.version ns_caller

/-- tfm_rpc_psa_close from tfm_rpc.c. -/
def tfm_rpc_psa_close (env : Env) (params : client_call_params_t) (ns_caller : Bool) :
    Outcome Unit :=
  tfm_psa_close env params.handle ns_caller

/-- A bool argument as the 32-bit word a C call passes. -/
def word_of_bool (b : Bool) : Int := if b then 1 else 0

/-- TFM_PARTITION_UNPRIVILEGED_MODE, the constant final argument of the
call in tfm_rpc_psa_call; its header is not part of this snapshot. -/
def TFM_PARTITION_UNPRIVILEGED_MODE : Int := 0

/-- The actual-argument words that tfm_rpc_psa_call in tfm_rpc.c passes to
tfm_psa_call, in source order: params->handle, params->type,
params->in_vec, params->in_len, params->out_vec, params->out_len,
ns_caller, TFM_PARTITION_UNPRIVILEGED_MODE — eight arguments.  Every
argument of the C call is one machine word (handles, addresses, sizes,
flags), so the argument tuple is modelled as a list of words. -/
def tfm_rpc_psa_call_actuals (params : client_call_params_t) (ns_caller : Bool) : List Int :=
  [params.handle, Int.ofNat params.type, Int.ofNat params.in_vec, Int.ofNat params.in_len,
   Int.ofNat params.out_vec, Int.ofNat params.out_len, word_of_bool ns_caller,
   TFM_PARTITION_UNPRIVILEGED_MODE]

/-- The argument words that invoking the direct entry point
tfm_psa_call(handle, in_vec, in_len, out_vec, out_len, ns_caller) — the
six-parameter definition in tfm_psa_client_call.c — with the fields
unpacked from the parameter block would receive.  This is the forwarding
the specification describes. -/
def tfm_psa_call_formal_words (params : client_call_params_t) (ns_caller : Bool) : List Int :=
  [params.handle, Int.ofNat params.in_vec, Int.ofNat params.in_len,
   Int.ofNat params.out_vec, Int.ofNat params.out_len, word_of_bool ns_caller]

/-- Replace only the event-path hand-off of an environment, leaving every
other collaborator unchanged. -/
def with_send_event (env : Env) (f : Service → MsgParams → Int) : Env :=
  ⟨env.tfm_spm_get_service_by_sid, env.tfm_spm_get_service_by_handle,
   env.tfm_spm_check_client_version, env.tfm_memory_check, env.msg_alloc_ok, f⟩

/-- Every range check passes in an environment whose boundary checker
always returns IPC_SUCCESS. -/
theorem check_ranges_all_ok (env : Env) (ns_caller : Bool)
    (hmc : ∀ b l n, env.tfm_memory_check b l n = IPC_SUCCESS) :
    ∀ vs : List (Nat × Nat), (check_ranges env ns_caller vs).2 = true := by
  intro vs
  induction vs with
  | nil => rfl
  | cons hd tl ih =>
    obtain ⟨b, l⟩ := hd
    unfold check_ranges
    simp [hmc]
    exact ih

/-- A sample reachable service: reachable by less-trusted callers, minor
version 2. -/
def serviceW : Service := ⟨⟨true, 2⟩⟩

/-- A permissive concrete environment: sid 7 and handle 1 resolve to
serviceW, minor versions up to 2 are compatible, every memory range is
legal, allocation and the event path succeed. -/
def envW : Env :=
  ⟨fun sid => if sid = 7 then some serviceW else none,
   fun h => if h = 1 then some serviceW else none,
   fun _ minor => if minor ≤ 2 then IPC_SUCCESS else -1,
   fun _ _ _ => IPC_SUCCESS,
   fun _ _ => true,
   fun _ _ => IPC_SUCCESS⟩

/-- Concrete caller memory A. -/
def memA : CallerMem := ⟨fun _ _ => ⟨10, 1⟩, fun _ _ => ⟨20, 1⟩⟩

/-- Concrete caller memory B, different from memA. -/
def memB : CallerMem := ⟨fun _ _ => ⟨30, 2⟩, fun _ _ => ⟨40, 2⟩⟩

/-- A caller that never mutates its arrays: memory is memA at every
phase. -/
def memTrace1 : Phase → CallerMem
  | Phase.copyIn => memA
  | Phase.copyOut => memA
  | Phase.afterCopy => memA

/-- A caller that rewrites its descriptor arrays to memB after the copy
point. -/
def memTrace2 : Phase → CallerMem
  | Phase.copyIn => memA
  | Phase.copyOut => memA
  | Phase.afterCopy => memB

/-- Claim C1: the per-element buffer validation and the descriptors placed
into the constructed message are taken exclusively from the sanitized
local copy, taken before any per-element check: two runs of tfm_psa_call
that differ only in the contents of the caller's descriptor arrays after
the two copy snapshots (phase afterCopy) validate and forward the same
descriptors — their outcomes, traces included, are identical. -/
theorem tfm_psa_call_uses_snapshot (env : Env) (mem1 mem2 : Phase → CallerMem)
    (handle : Int) (in_vec in_len out_vec out_len : Nat) (ns_caller : Bool)
    (hin : mem1 Phase.copyIn = mem2 Phase.copyIn)
    (hout : mem1 Phase.copyOut = mem2 Phase.copyOut) :
    tfm_psa_call env mem1 handle in_vec in_len out_vec out_len ns_caller =
      tfm_psa_call env mem2 handle in_vec in_len out_vec out_len ns_caller := by
  unfold tfm_psa_call
  rw [hin, hout]

/-- Witness for C1 at a concrete input: a caller that mutates both arrays
after the copy point gets the same dispatch outcome as one that does
not. -/
theorem tfm_psa_call_uses_snapshot_witness :
    memTrace1 Phase.copyIn = memTrace2 Phase.copyIn ∧
    memTrace1 Phase.copyOut = memTrace2 Phase.copyOut ∧
    tfm_psa_call envW memTrace1 1 100 1 200 1 true =
      tfm_psa_call envW memTrace2 1 100 1 200 1 true :=
  ⟨rfl, rfl, tfm_psa_call_uses_snapshot envW memTrace1 memTrace2 1 100 1 200 1 true rfl rfl⟩

/-- A service used by the wraparound environment. -/
def serviceC2 : Service := ⟨⟨true, 1⟩⟩

/-- A concrete environment for the vector-count-gate evaluation: handle 1
resolves, and every memory boundary check fails. -/
def envC2 : Env :=
  ⟨fun _ => none,
   fun h => if h = 1 then some serviceC2 else none,
   fun _ _ => IPC_SUCCESS,
   fun _ _ _ => -1,
   fun _ _ => false,
   fun _ _ => IPC_SUCCESS⟩

/-- A constant caller memory trace. -/
def memC2 : Phase → CallerMem := fun _ => memA

/-- Claim C2 evaluation (the claim fails on the code): with in_len =
2^32 - 4 and out_len = 4 the mathematical sum 2^32 exceeds
PSA_MAX_IOVEC, but the size_t sum computed by the gate wraps to 0, so
the dispatcher does not panic at the count gate: it proceeds to consult
the memory boundary checker on the caller-supplied input descriptor
array (length (2^32 - 4) * 8 mod 2^32 = 4294967264 bytes) and only
panics there because this environment rejects the range — the trace is
not empty, refuting the claim that the call terminates before inspecting
any caller-supplied descriptor. -/
theorem tfm_psa_call_iovec_gate_wraps :
    4294967292 + 4 > PSA_MAX_IOVEC ∧
    tfm_psa_call envC2 memC2 1 1000 4294967292 2000 4 true =
      Outcome.panic [Ev.check 1000 4294967264 true] :=
  ⟨by decide, by rfl⟩

/-- Claim C3: on a valid connect path (service resolves, caller
authorized, version compatible) tfm_psa_connect returns
PSA_CONNECTION_BUSY when message construction fails, and otherwise
returns PSA_SUCCESS having handed exactly one message — the connect
message with null handle, no payload, tagged with the caller trust
level — to the event path; it never panics on this path and returns no
other status. -/
theorem tfm_psa_connect_valid_path (env : Env) (sid minor_version : Nat) (ns_caller : Bool)
    (service : Service)
    (hsid : env.tfm_spm_get_service_by_sid sid = some service)
    (hauth : ns_caller = true → service.service_db.non_secure_client = true)
    (hver : env.tfm_spm_check_client_version service minor_version = IPC_SUCCESS) :
    (env.msg_alloc_ok service (connect_msg_params ns_caller) = false →
      tfm_psa_connect env sid minor_version ns_caller =
        Outcome.ret PSA_CONNECTION_BUSY
          [Ev.create service (connect_msg_params ns_caller)]) ∧
    (env.msg_alloc_ok service (connect_msg_params ns_caller) = true →
      tfm_psa_connect env sid minor_version ns_caller =
        Outcome.ret PSA_SUCCESS
          [Ev.create service (connect_msg_params ns_caller),
           Ev.send service (connect_msg_params ns_caller)]) ∧
    (∀ tr, tfm_psa_connect env sid minor_version ns_caller ≠ Outcome.panic tr) := by
  have hc : (ns_caller && !service.service_db.non_secure_client) = false := by
    cases hb : ns_caller
    · rfl
    · simp [hauth hb]
  refine ⟨?_, ?_, ?_⟩
  · intro halloc
    unfold tfm_psa_connect tfm_spm_create_msg
    rw [hsid]
    simp [hc, hver, halloc]
  · intro halloc
    unfold tfm_psa_connect tfm_spm_create_msg
    rw [hsid]
    simp [hc, hver, halloc]
  · intro tr
    unfold tfm_psa_connect tfm_spm_create_msg
    rw [hsid]
    cases halloc : env.msg_alloc_ok service (connect_msg_params ns_caller) <;>
      simp [hc, hver, halloc]

/-- Witness for C3 at a concrete input: connecting to sid 7 with minor
version 2 from a less-trusted caller in the permissive environment
succeeds with exactly one connect message handed to the event path. -/
theorem tfm_psa_connect_valid_path_witness :
    envW.msg_alloc_ok serviceW (connect_msg_params true) = true ∧
    tfm_psa_connect envW 7 2 true =
      Outcome.ret PSA_SUCCESS
        [Ev.create serviceW (connect_msg_params true),
         Ev.send serviceW (connect_msg_params true)] :=
  ⟨rfl,
   (tfm_psa_connect_valid_path envW 7 2 true serviceW (by decide) (fun _ => rfl)
      (by decide)).2.1 rfl⟩

/-- Claim C4: tfm_rpc_register_ops returns TFM_RPC_INVAL_PARAM when the
ops pointer is NULL or either handler in it is NULL (leaving the slot
unchanged); returns TFM_RPC_CONFLICT_CALLBACK when the slot already
holds a non-default pair (leaving it unchanged, so an active
registration is never overwritten); and otherwise installs both supplied
handlers and returns TFM_RPC_SUCCESS — so at most one non-default
registration exists at a time. -/
theorem tfm_rpc_register_ops_spec (rpc_ops : tfm_rpc_ops_t) (ops_ptr : Option tfm_rpc_ops_t) :
    (ops_ptr = none →
      tfm_rpc_register_ops rpc_ops ops_ptr = (TFM_RPC_INVAL_PARAM, rpc_ops)) ∧
    (∀ ops, ops_ptr = some ops →
      (ops.handle_req = FnPtr.null ∨ ops.reply = FnPtr.null) →
      tfm_rpc_register_ops rpc_ops ops_ptr = (TFM_RPC_INVAL_PARAM, rpc_ops)) ∧
    (∀ ops, ops_ptr = some ops →
      ops.handle_req ≠ FnPtr.null → ops.reply ≠ FnPtr.null →
      rpc_ops ≠ default_rpc_ops →
      tfm_rpc_register_ops rpc_ops ops_ptr = (TFM_RPC_CONFLICT_CALLBACK, rpc_ops)) ∧
    (∀ ops, ops_ptr = some ops →
      ops.handle_req ≠ FnPtr.null → ops.reply ≠ FnPtr.null →
      rpc_ops = default_rpc_ops →
      tfm_rpc_register_ops rpc_ops ops_ptr = (TFM_RPC_SUCCESS, ops)) := by
  have hdef : (rpc_ops.handle_req ≠ FnPtr.defaultFn ∨ rpc_ops.reply ≠ FnPtr.defaultFn) ↔
      rpc_ops ≠ default_rpc_ops := by
    obtain ⟨hr, rp⟩ := rpc_ops
    simp [default_rpc_ops]
    tauto
  refine ⟨?_, ?_, ?_, ?_⟩
  · intro h
    rw [h]
    rfl
  · intro ops h hnull
    rw [h]
    unfold tfm_rpc_register_ops
    simp [hnull]
  · intro ops h h1 h2 hst
    rw [h]
    unfold tfm_rpc_register_ops
    simp [h1, h2, hdef.mpr hst]
  · intro ops h h1 h2 hst
    rw [h, hst]
    unfold tfm_rpc_register_ops
    simp [h1, h2, default_rpc_ops]

/-- Witness for C4 at concrete inputs: registering a non-null pair on the
default slot installs it with TFM_RPC_SUCCESS, and a second registration
attempt on the now-bound slot fails with TFM_RPC_CONFLICT_CALLBACK
leaving the slot unchanged. -/
theorem tfm_rpc_register_ops_spec_witness :
    tfm_rpc_register_ops default_rpc_ops (some ⟨FnPtr.other 1, FnPtr.other 2⟩) =
      (TFM_RPC_SUCCESS, ⟨FnPtr.other 1, FnPtr.other 2⟩) ∧
    tfm_rpc_register_ops ⟨FnPtr.other 1, FnPtr.other 2⟩ (some ⟨FnPtr.other 3, FnPtr.other 4⟩) =
      (TFM_RPC_CONFLICT_CALLBACK, ⟨FnPtr.other 1, FnPtr.other 2⟩) :=
  ⟨(tfm_rpc_register_ops_spec default_rpc_ops (some ⟨FnPtr.other 1, FnPtr.other 2⟩)).2.2.2
      ⟨FnPtr.other 1, FnPtr.other 2⟩ rfl (by decide) (by decide) rfl,
   (tfm_rpc_register_ops_spec ⟨FnPtr.other 1, FnPtr.other 2⟩
      (some ⟨FnPtr.other 3, FnPtr.other 4⟩)).2.2.1
      ⟨FnPtr.other 3, FnPtr.other 4⟩ rfl (by decide) (by decide) (by decide)⟩

/-- Claim C5: tfm_psa_version returns the PSA_VERSION_NONE sentinel when
the service identifier does not resolve, and when it resolves but the
caller is less-trusted and the service is not reachable by less-trusted
callers; otherwise it returns the service's minor version.  The source
function has no panic path and no state mutation: the embedding is a
total pure function. -/
theorem tfm_psa_version_spec (env : Env) (sid : Nat) (ns_caller : Bool) :
    (env.tfm_spm_get_service_by_sid sid = none →
      tfm_psa_version env sid ns_caller = PSA_VERSION_NONE) ∧
    (∀ s, env.tfm_spm_get_service_by_sid sid = some s → ns_caller = true →
      s.service_db.non_secure_client = false →
      tfm_psa_version env sid ns_caller = PSA_VERSION_NONE) ∧
    (∀ s, env.tfm_spm_get_service_by_sid sid = some s →
      (ns_caller = false ∨ s.service_db.non_secure_client = true) →
      tfm_psa_version env sid ns_caller = s.service_db.minor_version) := by
  refine ⟨?_, ?_, ?_⟩
  · intro h
    unfold tfm_psa_version
    rw [h]
  · intro s hs hns hflag
    unfold tfm_psa_version
    rw [hs]
    simp [hns, hflag]
  · intro s hs hok
    unfold tfm_psa_version
    rw [hs]
    rcases hok with h | h <;> simp [h]

/-- Witness for C5 at concrete inputs: an unknown sid yields the sentinel,
and a resolvable, less-trusted-reachable service yields its minor
version. -/
theorem tfm_psa_version_spec_witness :
    tfm_psa_version envW 42 true = PSA_VERSION_NONE ∧
    tfm_psa_version envW 7 true = 2 :=
  ⟨(tfm_psa_version_spec envW 42 true).1 (by decide),
   (tfm_psa_version_spec envW 7 true).2.2 serviceW (by decide) (Or.inr rfl)⟩

/-- Claim C7: for every environment and caller trust level, closing the
null handle returns immediately: no panic, no message construction
attempt, no event-path signal (the trace is empty). -/
theorem tfm_psa_close_null_noop (env : Env) (ns_caller : Bool) :
    tfm_psa_close env PSA_NULL_HANDLE ns_caller = Outcome.ret () [] := by
  unfold tfm_psa_close
  simp

/-- Claim C8: closing a non-null handle that resolves to a live connection
returns normally in both cases: when disconnect-message construction
fails the call returns with no event-path signal and no error surfaced
to the caller; when it succeeds the call hands exactly one disconnect
message with no payload to the event path. -/
theorem tfm_psa_close_live_handle (env : Env) (handle : Int) (ns_caller : Bool)
    (service : Service)
    (hh : handle ≠ PSA_NULL_HANDLE)
    (hs : env.tfm_spm_get_service_by_handle handle = some service) :
    (env.msg_alloc_ok service (close_msg_params handle ns_caller) = false →
      tfm_psa_close env handle ns_caller =
        Outcome.ret () [Ev.create service (close_msg_params handle ns_caller)]) ∧
    (env.msg_alloc_ok service (close_msg_params handle ns_caller) = true →
      tfm_psa_close env handle ns_caller =
        Outcome.ret () [Ev.create service (close_msg_params handle ns_caller),
                        Ev.send service (close_msg_params handle ns_caller)]) := by
  refine ⟨?_, ?_⟩ <;> intro halloc <;>
    · unfold tfm_psa_close tfm_spm_create_msg
      rw [if_neg hh, hs]
      simp [halloc]

/-- An environment identical to envW except that message allocation always
fails. -/
def envAllocFail : Env :=
  ⟨fun sid => if sid = 7 then some serviceW else none,
   fun h => if h = 1 then some serviceW else none,
   fun _ minor => if minor ≤ 2 then IPC_SUCCESS else -1,
   fun _ _ _ => IPC_SUCCESS,
   fun _ _ => false,
   fun _ _ => IPC_SUCCESS⟩

/-- Witness for C8 at concrete inputs: with allocation failing, closing
live handle 1 silently returns after the failed construction attempt;
with allocation succeeding, it hands exactly one disconnect message to
the event path. -/
theorem tfm_psa_close_live_handle_witness :
    envAllocFail.msg_alloc_ok serviceW (close_msg_params 1 true) = false ∧
    tfm_psa_close envAllocFail 1 true =
      Outcome.ret () [Ev.create serviceW (close_msg_params 1 true)] ∧
    tfm_psa_close envW 1 true =
      Outcome.ret () [Ev.create serviceW (close_msg_params 1 true),
                      Ev.send serviceW (close_msg_params 1 true)] :=
  ⟨rfl,
   (tfm_psa_close_live_handle envAllocFail 1 true serviceW (by decide) (by decide)).1 rfl,
   (tfm_psa_close_live_handle envW 1 true serviceW (by decide) (by decide)).2 rfl⟩

/-- Claim C9: tfm_rpc_unregister_ops restores both slot members to the
defaults from any prior state, is idempotent, and a registration with
non-null handlers performed after an unregister succeeds from any prior
state. -/
theorem tfm_rpc_unregister_ops_spec :
    (∀ st : tfm_rpc_ops_t, tfm_rpc_unregister_ops st = default_rpc_ops) ∧
    (∀ st : tfm_rpc_ops_t,
      tfm_rpc_unregister_ops (tfm_rpc_unregister_ops st) = tfm_rpc_unregister_ops st) ∧
    (∀ st ops : tfm_rpc_ops_t, ops.handle_req ≠ FnPtr.null → ops.reply ≠ FnPtr.null →
      tfm_rpc_register_ops (tfm_rpc_unregister_ops st) (some ops) =
        (TFM_RPC_SUCCESS, ops)) := by
  refine ⟨fun _ => rfl, fun _ => rfl, ?_⟩
  intro st ops h1 h2
  unfold tfm_rpc_register_ops tfm_rpc_unregister_ops
  simp [h1, h2, default_rpc_ops]

/-- Witness for C9 at concrete inputs: unregistering a bound slot restores
the defaults, and registering again afterwards succeeds. -/
theorem tfm_rpc_unregister_ops_spec_witness :
    tfm_rpc_unregister_ops ⟨FnPtr.other 1, FnPtr.other 2⟩ = default_rpc_ops ∧
    tfm_rpc_register_ops (tfm_rpc_unregister_ops ⟨FnPtr.other 1, FnPtr.other 2⟩)
      (some ⟨FnPtr.other 5, FnPtr.other 6⟩) = (TFM_RPC_SUCCESS, ⟨FnPtr.other 5, FnPtr.other 6⟩) :=
  ⟨tfm_rpc_unregister_ops_spec.1 ⟨FnPtr.other 1, FnPtr.other 2⟩,
   tfm_rpc_unregister_ops_spec.2.2 ⟨FnPtr.other 1, FnPtr.other 2⟩
     ⟨FnPtr.other 5, FnPtr.other 6⟩ (by decide) (by decide)⟩

/-- Claim C10: tfm_psa_connect and tfm_psa_close discard the status of the
event-path hand-off — replacing the send-event collaborator by any other
changes nothing about their outcome — while tfm_psa_call treats a failed
hand-off as fatal: on a path that reaches the hand-off (live handle,
vector count within bound, all ranges legal, allocation succeeding), a
non-success send status makes the call panic. -/
theorem send_event_status_discipline :
    (∀ env f sid minor_version ns_caller,
      tfm_psa_connect (with_send_event env f) sid minor_version ns_caller =
        tfm_psa_connect env sid minor_version ns_caller) ∧
    (∀ env f handle ns_caller,
      tfm_psa_close (with_send_event env f) handle ns_caller =
        tfm_psa_close env handle ns_caller) ∧
    (∀ env mem handle in_vec in_len out_vec out_len ns_caller service,
      in_len + out_len ≤ PSA_MAX_IOVEC →
      env.tfm_spm_get_service_by_handle handle = some service →
      (∀ b l n, env.tfm_memory_check b l n = IPC_SUCCESS) →
      (∀ s p, env.msg_alloc_ok s p = true) →
      (∀ s p, env.tfm_spm_send_event s p ≠ IPC_SUCCESS) →
      ∃ tr, tfm_psa_call env mem handle in_vec in_len out_vec out_len ns_caller =
        Outcome.panic tr) := by
  refine ⟨fun env f sid minor_version ns_caller => rfl,
          fun env f handle ns_caller => rfl, ?_⟩
  intro env mem handle in_vec in_len out_vec out_len ns_caller service
    hlen hs hmc halloc hsend
  have hmod : (in_len + out_len) % SIZE_T_MOD = in_len + out_len :=
    Nat.mod_eq_of_lt (lt_of_le_of_lt hlen (by decide))
  have hgate : ¬ ((in_len + out_len) % SIZE_T_MOD > PSA_MAX_IOVEC) := by
    rw [hmod]
    exact Nat.not_lt.mpr hlen
  unfold tfm_psa_call tfm_spm_create_msg
  rw [if_neg hgate, hs]
  simp only [hmc, halloc, check_ranges_all_ok env ns_caller hmc]
  simp [hsend]

/-- An environment identical to envW except that the event-path hand-off
always reports failure. -/
def envSendFail : Env :=
  ⟨fun sid => if sid = 7 then some serviceW else none,
   fun h => if h = 1 then some serviceW else none,
   fun _ minor => if minor ≤ 2 then IPC_SUCCESS else -1,
   fun _ _ _ => IPC_SUCCESS,
   fun _ _ => true,
   fun _ _ => -1⟩

/-- Witness for C10's call conjunct at a concrete input: in an environment
where every check passes but the event-path hand-off reports failure,
the call panics. -/
theorem send_event_status_discipline_witness :
    ∃ tr, tfm_psa_call envSendFail memC2 1 100 1 200 1 true = Outcome.panic tr :=
  send_event_status_discipline.2.2 envSendFail
    memC2 1 100 1 200 1 true serviceW (by decide) (by decide)
    (fun _ _ _ => rfl) (fun _ _ => rfl)
    (fun _ _ => show (-1 : Int) ≠ IPC_SUCCESS by decide)

/-- Claim C6 evaluation (the claim fails on the code): the version, connect
and close wrappers in tfm_rpc.c do forward exactly the fields unpacked
from the parameter block to the corresponding direct entry points, but
the call wrapper does not: it invokes tfm_psa_call with eight actual
arguments — inserting params->type after the handle and appending
TFM_PARTITION_UNPRIVILEGED_MODE — while the direct entry point defined
in tfm_psa_client_call.c has six parameters (handle, in_vec, in_len,
out_vec, out_len, ns_caller), so the argument words it supplies are not
the six-tuple the claim names (evaluated here at a concrete parameter
block). -/
theorem tfm_rpc_wrapper_forwarding :
    (∀ env params ns_caller,
      tfm_rpc_psa_version env params ns_caller = tfm_psa_version env params.sid ns_caller) ∧
    (∀ env params ns_caller,
      tfm_rpc_psa_connect env params ns_caller =
        tfm_psa_connect env params.sid params.version ns_caller) ∧
    (∀ env params ns_caller,
      tfm_rpc_psa_close env params ns_caller = tfm_psa_close env params.handle ns_caller) ∧
    (tfm_rpc_psa_call_actuals ⟨7, 1, 5, 2, 100, 1, 200, 1⟩ true).length = 8 ∧
    tfm_rpc_psa_call_actuals ⟨7, 1, 5, 2, 100, 1, 200, 1⟩ true ≠
      tfm_psa_call_formal_words ⟨7, 1, 5, 2, 100, 1, 200, 1⟩ true :=
  ⟨fun _ _ _ => rfl, fun _ _ _ => rfl, fun _ _ _ => rfl, rfl, by decide⟩

end TfmIpc
